import Mathlib

/-!
Shallow embedding of `main.py` (BrickLink inventory manager).

The script parses a BrickLink XML inventory into line-item dictionaries,
deduplicates price lookups by the string key `f"{itemid}_{itemtype}_{condition}"`,
queries the BrickLink price API (with a used-to-new price fallback), and
serializes the results to a mass-upload XML document and a simplified JSON
document.  Every definition below is translated from the source; Python dicts
whose shape is fixed by their construction site become structures or tagged
unions, the HTTP world becomes an explicit outcome value, and exceptions become
`Except`/`Option` results.
-/

/-- A single-quote character as a string (used in Python error messages). -/
def singleQuote : String := String.singleton (Char.ofNat 39)

/-- Python truthiness of an optional string (`None` and `""` are falsy). -/
def pyTruthy : Option String → Bool
  | none => false
  | some s => s != ""

/-- Python `f"{x}"` interpolation of a value that may be `None`. -/
def optText : Option String → String
  | none => "None"
  | some s => s

/-- Python `str.isdigit` restricted to ASCII digit strings (the only inputs the
claims exercise): true iff the string is nonempty and all characters are
decimal digits. -/
def pyIsdigit (s : String) : Bool :=
  !s.data.isEmpty && s.data.all Char.isDigit

/-- Python `int(...)` on a string that passed `isdigit`: the value of its
decimal digits. -/
def digitsVal (l : List Char) : ℕ :=
  l.foldl (fun a c => 10 * a + (c.toNat - 48)) 0

/-- Parse a (nonempty, all-digit) character list as a natural number. -/
def listToNat? (l : List Char) : Option ℕ :=
  if !l.isEmpty && l.all Char.isDigit then some (digitsVal l) else none

/-- Python `s.split('.')` on the character list of `s`. -/
def splitDot : List Char → List (List Char)
  | [] => [[]]
  | c :: cs =>
    match splitDot cs with
    | [] => [[c]]
    | h :: t => if c = '.' then [] :: h :: t else (c :: h) :: t

/-- Python `float(...)` on the decimal strings the BrickLink API produces:
`"12"`, `"12.34"`, `"12."`, `".34"`.  Exponents and signs are not modelled;
strings outside this grammar parse to `none`, modelling the `ValueError` that
`float` raises on them. -/
def parseDecimal (s : String) : Option ℚ :=
  match splitDot s.data with
  | [a] => (listToNat? a).map (fun n => mkRat ((n : ℕ) : ℤ) 1)
  | [a, b] =>
    match listToNat? a, listToNat? b with
    | some n, some m => some (mkRat (((n * 10 ^ b.length + m : ℕ)) : ℤ) (10 ^ b.length))
    | some n, none => if b.isEmpty then some (mkRat ((n : ℕ) : ℤ) 1) else none
    | none, some m => if a.isEmpty then some (mkRat ((m : ℕ) : ℤ) (10 ^ b.length)) else none
    | none, none => none
  | _ => none

/-- Round a rational to the nearest integer, ties to even (the rounding used by
Python `format`; floats are modelled by exact rationals here).  Written over
`num`/`den` so that it evaluates by kernel reduction. -/
def roundHalfEven (p : ℚ) : ℤ :=
  let d : ℤ := (p.den : ℤ)
  let f : ℤ := Int.ediv p.num d
  let r : ℤ := p.num - f * d
  if 2 * r < d then f
  else if 2 * r > d then f + 1
  else if Int.emod f 2 = 0 then f else f + 1

/-- Two-digit zero padding for the cents part of a formatted price. -/
def pad2 (n : ℕ) : String :=
  if n < 10 then "0" ++ toString n else toString n

/-- Python `f"{x:.2f}"` on the exact-rational model of the float `x`:
round `x * 100` (written as `mkRat (num * 100) den`, which equals `x * 100`)
to a whole number of cents, ties to even, then print with two decimals. -/
def fmt2 (q : ℚ) : String :=
  let c : ℤ := roundHalfEven (mkRat (q.num * 100) q.den)
  if c < 0 then
    "-" ++ toString (Int.ediv (-c) 100) ++ "." ++ pad2 (Int.emod (-c) 100).toNat
  else
    toString (Int.ediv c 100) ++ "." ++ pad2 (Int.emod c 100).toNat

/-- XML `ITEMTYPE` codes admitted by `ITEM_TYPE_MAP` in the source
(`'M'`, `'P'`, `'S'`); the parser only ever stores these. -/
inductive ItemType where
  | M
  | P
  | S
deriving DecidableEq

/-- `ITEM_TYPE_MAP`: XML type code to BrickLink API type string. -/
def ITEM_TYPE_MAP : ItemType → String
  | .M => "MINIFIG"
  | .P => "PART"
  | .S => "SET"

/-- The XML one-letter code of an `ItemType` (the dictionary key itself). -/
def typeCode : ItemType → String
  | .M => "M"
  | .P => "P"
  | .S => "S"

/-- Membership test `itemtype.text in ITEM_TYPE_MAP` from the parser. -/
def codeToType? (s : String) : Option ItemType :=
  if s = "M" then some ItemType.M
  else if s = "P" then some ItemType.P
  else if s = "S" then some ItemType.S
  else none

/-- `{v: k for k, v in ITEM_TYPE_MAP.items()}.get(api_type, 'M')` from
`create_bricklink_upload_xml`. -/
def revTypeMap (api_type : String) : String :=
  if api_type = "MINIFIG" then "M"
  else if api_type = "PART" then "P"
  else if api_type = "SET" then "S"
  else "M"

/-- The pricing payload `data.get('data', {})` of an API response; the fields
the script reads.  An absent field is `none` (`dict.get` default). -/
structure PriceData where
  avg_price : Option String
  min_price : Option String
  max_price : Option String
  qty_avg_price : Option String
  unit_quantity : Nat
deriving DecidableEq

/-- The `meta` object of a BrickLink API response body. -/
structure ApiMeta where
  code : Option Int
  message : Option String
  description : Option String
deriving DecidableEq

/-- A decoded BrickLink API response body (`response.json()`). -/
structure ApiBody where
  meta : ApiMeta
  data : PriceData
deriving DecidableEq

/-- The response attached to a transport exception: its status code, its raw
text, and — when its body is JSON — the `meta.message` field of that JSON
(`some (some m)` parsed with a message, `some none` parsed without one,
`none` body not JSON). -/
structure ErrResp where
  status_code : Int
  text : String
  jsonMessage : Option (Option String)
deriving DecidableEq

/-- The outcome of the one HTTP round-trip in `get_item_price`:
`ok` - `session.get` returned and `response.json()` decoded;
`badJson` - the response arrived but `response.json()` raised (the raised
decode error carries no usable response, so the handler falls back to
`str(e)` and a `None` status);
`exn` - `session.get` itself raised, possibly with a response attached. -/
inductive HttpOutcome where
  | ok (status_code : Int) (body : ApiBody)
  | badJson (status_code : Int) (msg : String)
  | exn (msg : String) (response : Option ErrResp)
deriving DecidableEq

/-- The dictionary returned by `BricklinkAPI.get_item_price`: the success dict
has keys `success, itemid, item_type, condition, data`; the failure dict has
keys `success, itemid, item_type, error, status_code` and no `condition` key. -/
inductive FetchResult where
  | success (itemid : String) (item_type : String) (condition : Option String)
      (data : PriceData)
  | failure (itemid : String) (item_type : String) (error : String)
      (status_code : Option Int)
deriving DecidableEq

/-- `result['success']`. -/
def FetchResult.isSuccess : FetchResult → Bool
  | .success .. => true
  | .failure .. => false

/-- `result['itemid']`. -/
def FetchResult.itemidOf : FetchResult → String
  | .success i _ _ _ => i
  | .failure i _ _ _ => i

/-- `result.get('item_type', 'MINIFIG')` (the key is always present). -/
def FetchResult.itemTypeOf : FetchResult → String
  | .success _ t _ _ => t
  | .failure _ t _ _ => t

/-- `result['data'] = new_data` (only ever applied to a success dict). -/
def FetchResult.withData : FetchResult → PriceData → FetchResult
  | .success i t c _, d => .success i t c d
  | .failure i t e s, _ => .failure i t e s

/-- Whether the dict has a `'condition'` key, and its value when it does:
the success dict stores the requested condition, the failure dict has no
such key. -/
def FetchResult.conditionKey : FetchResult → Option (Option String)
  | .success _ _ c _ => some c
  | .failure .. => none

/-- `f"{error_msg}" + (f" - {error_desc}" if error_desc else "")` built from
`meta.get('message', 'Unknown error')` and `meta.get('description', '')`. -/
def fullErrorOf (m : ApiMeta) : String :=
  let msg := m.message.getD "Unknown error"
  let desc := m.description.getD ""
  msg ++ (if desc != "" then " - " ++ desc else "")

/-- `BricklinkAPI.get_item_price(item_id, item_type, condition)` as a function
of the HTTP outcome.  All exception paths of the source are the tagged
`failure` branches; the function is total, so nothing escapes the method. -/
def get_item_price (o : HttpOutcome) (item_id item_type : String)
    (condition : Option String) : FetchResult :=
  match o with
  | .ok st body =>
    if body.meta.code = some 200 then
      .success item_id item_type condition body.data
    else
      .failure item_id item_type (fullErrorOf body.meta) (some st)
  | .badJson _ msg => .failure item_id item_type msg none
  | .exn msg resp =>
    match resp with
    | none => .failure item_id item_type msg none
    | some r =>
      match r.jsonMessage with
      | none =>
        .failure item_id item_type
          ("HTTP " ++ toString r.status_code ++ ": " ++ r.text) (some r.status_code)
      | some jm => .failure item_id item_type (jm.getD msg) (some r.status_code)


/-- A normalized line item produced by `parse_xml_inventory`.  `itemtype` is
one of the admitted codes; `color` and `condition` hold the element text,
which Python stores as `None` when the element is present but empty
(`color` is `'0'` and `condition` is `'U'` when the element is absent). -/
structure LineItem where
  itemid : String
  itemtype : ItemType
  color : Option String
  quantity : Nat
  condition : Option String
deriving DecidableEq

/-- One `<ITEM>` element of the inventory document, as ElementTree exposes it:
for each child tag, `none` means the element is absent, `some none` means it
is present with no text (`elem.text is None`), `some (some s)` means it is
present with text `s`. -/
structure RawItem where
  itemtype : Option (Option String)
  itemid : Option (Option String)
  color : Option (Option String)
  qty : Option (Option String)
  condition : Option (Option String)
deriving DecidableEq

/-- What opening and parsing the inventory file can yield: the file is absent
(`FileNotFoundError`), the XML is malformed (`ET.ParseError` with message), or
it parses into a list of `<ITEM>` elements. -/
inductive XmlSource where
  | missing
  | malformed (msg : String)
  | ok (entries : List RawItem)
deriving DecidableEq

/-- The `AttributeError` message Python raises for `None.isdigit()`. -/
def attrErrMsg : String :=
  singleQuote ++ "NoneType" ++ singleQuote ++ " object has no attribute " ++
    singleQuote ++ "isdigit" ++ singleQuote

/-- The body of the `for item in root.findall('.//ITEM')` loop for one entry:
`Except.error` is an exception escaping the loop (only `qty.text.isdigit()`
on a present-but-empty `QTY` can raise), `Except.ok none` a silently skipped
entry, `Except.ok (some li)` an accepted line item. -/
def parseEntry (e : RawItem) : Except String (Option LineItem) :=
  match e.itemtype, e.itemid with
  | some (some t), some (some i) =>
    match codeToType? t with
    | none => Except.ok none
    | some ty =>
      if i = "" then Except.ok none
      else
        match e.qty with
        | some none => Except.error attrErrMsg
        | _ =>
          Except.ok (some
            { itemid := i
              itemtype := ty
              color :=
                match e.color with
                | some ctext => ctext
                | none => some "0"
              quantity :=
                match e.qty with
                | some (some qs) => if pyIsdigit qs then (listToNat? qs.data).getD 1 else 1
                | _ => 1
              condition :=
                match e.condition with
                | some ctext => ctext
                | none => some "U" })
  | _, _ => Except.ok none

/-- The whole entry loop of `parse_xml_inventory`: entries are processed in
document order; an exception abandons the partial list. -/
def parseEntries : List RawItem → Except String (List LineItem)
  | [] => Except.ok []
  | e :: rest =>
    match parseEntry e with
    | Except.error m => Except.error m
    | Except.ok none => parseEntries rest
    | Except.ok (some li) =>
      match parseEntries rest with
      | Except.error m => Except.error m
      | Except.ok l => Except.ok (li :: l)

/-- `parse_xml_inventory(xml_file)`: the returned item list together with the
error line the function prints on its `except` paths (`none` when nothing is
printed).  Every failure path returns `[]`; nothing is raised to the caller. -/
def parse_xml_inventory (xml_file : String) (src : XmlSource) :
    List LineItem × Option String :=
  match src with
  | .missing =>
    ([], some ("Error: XML file " ++ singleQuote ++ xml_file ++ singleQuote ++ " not found."))
  | .malformed m => ([], some ("Error parsing XML file: " ++ m))
  | .ok entries =>
    match parseEntries entries with
    | Except.ok items => (items, none)
    | Except.error m => ([], some ("Error reading XML file: " ++ m))

/-- A price-lookup oracle: what `api.get_item_price(item_id, item_type,
condition)` returns for given arguments.  The pipeline is parametric in it. -/
abbrev Fetch := String → String → Option String → FetchResult

/-- An HTTP-level oracle lifted through the real client: the pipeline's
`api.get_item_price` calls with the network behaving as `o` prescribes. -/
def mkFetch (o : String → String → Option String → HttpOutcome) : Fetch :=
  fun item_id item_type condition =>
    get_item_price (o item_id item_type condition) item_id item_type condition

/-- One recorded API call of a pipeline run: the arguments passed to
`api.get_item_price`, and whether the call was the used-to-new fallback. -/
structure Call where
  itemid : String
  apiType : String
  cond : Option String
  fallback : Bool
deriving DecidableEq

/-- A pipeline result: the (possibly payload-replaced) fetch dictionary with
the `result['quantity'] = quantity` key attached. -/
structure PipeResult where
  res : FetchResult
  quantity : Nat
deriving DecidableEq

/-- `if condition_filter and condition != condition_filter: continue` —
the item is processed iff the filter is falsy or the conditions are equal. -/
def passesFilter (condition_filter : Option String) (cond : Option String) : Bool :=
  !pyTruthy condition_filter || cond == condition_filter

/-- `unique_key = f"{itemid}_{itemtype}_{condition}"` (the XML one-letter
type code, and `None` rendered as the string `"None"`). -/
def uniqueKey (li : LineItem) : String :=
  li.itemid ++ "_" ++ typeCode li.itemtype ++ "_" ++ optText li.condition

/-- `condition == 'U' and result['success'] and not result['data'].get('avg_price')`. -/
def needsFallback (cond : Option String) (r : FetchResult) : Bool :=
  cond == some "U" &&
    match r with
    | .success _ _ _ d => !pyTruthy d.avg_price
    | .failure .. => false

/-- The body of the pipeline loop for an item that passed the filter and the
dedup check: the primary fetch, the optional used-to-new fallback fetch with
its payload replacement, and the list of API calls it performs, in order. -/
def processItem (fetch : Fetch) (li : LineItem) : PipeResult × List Call :=
  let apiType := ITEM_TYPE_MAP li.itemtype
  let r := fetch li.itemid apiType li.condition
  let primary : Call := ⟨li.itemid, apiType, li.condition, false⟩
  if needsFallback li.condition r then
    let nr := fetch li.itemid apiType (some "N")
    let r2 :=
      match nr with
      | .success _ _ _ d2 => if pyTruthy d2.avg_price then r.withData d2 else r
      | .failure .. => r
    (⟨r2, li.quantity⟩, [primary, ⟨li.itemid, apiType, some "N", true⟩])
  else
    (⟨r, li.quantity⟩, [primary])

/-- The loop of `get_prices_for_inventory`, with the mutable `processed_items`
set and the call trace made explicit: returns the results list and the list
of API calls, both in execution order. -/
def pipelineGo (fetch : Fetch) (condition_filter : Option String) :
    List LineItem → List String → List PipeResult × List Call
  | [], _ => ([], [])
  | li :: rest, processed =>
    if !passesFilter condition_filter li.condition then
      pipelineGo fetch condition_filter rest processed
    else if uniqueKey li ∈ processed then
      pipelineGo fetch condition_filter rest processed
    else
      let rc := processItem fetch li
      let tail := pipelineGo fetch condition_filter rest (uniqueKey li :: processed)
      (rc.1 :: tail.1, rc.2 ++ tail.2)

/-- `get_prices_for_inventory(api, items, condition_filter)`. -/
def get_prices_for_inventory (fetch : Fetch) (items : List LineItem)
    (condition_filter : Option String) : List PipeResult :=
  (pipelineGo fetch condition_filter items []).1

/-- The API calls a run of `get_prices_for_inventory` performs, in order. -/
def pipelineCalls (fetch : Fetch) (items : List LineItem)
    (condition_filter : Option String) : List Call :=
  (pipelineGo fetch condition_filter items []).2

/-- The dedup-key string of a call's argument triple (the same concatenation
the pipeline uses, with the API type string mapped back to its XML code). -/
def keyOfTriple (item_id api_type : String) (cond : Option String) : String :=
  item_id ++ "_" ++ revTypeMap api_type ++ "_" ++ optText cond

/-- How many non-fallback (dedup-guarded) calls of the trace pass exactly the
argument triple `(item_id, api_type, cond)`. -/
def countPrim (item_id api_type : String) (cond : Option String)
    (calls : List Call) : ℕ :=
  (calls.filter (fun c =>
    !c.fallback && c.itemid == item_id && c.apiType == api_type && c.cond == cond)).length

/-- Specification-side dedup (spec §4.3: process the first occurrence of each
key, skip the rest, keep insertion order of first-encountered keys): the
sublist of first occurrences of each not-yet-seen `uniqueKey`. -/
def dedupFirstBy (key : LineItem → String) : List LineItem → List String → List LineItem
  | [], _ => []
  | li :: rest, seen =>
    if key li ∈ seen then dedupFirstBy key rest seen
    else li :: dedupFirstBy key rest (key li :: seen)

/-- The `<PRICE>` value of `create_bricklink_upload_xml` for one result:
`"0.00"` on failure or missing/falsy average price, otherwise the average
price with the markup applied, formatted to two decimals; `none` models the
`ValueError` `float` raises on a non-decimal price string. -/
def priceValue (markup_percent : ℚ) (r : PipeResult) : Option String :=
  match r.res with
  | .failure .. => some "0.00"
  | .success _ _ _ d =>
    match d.avg_price with
    | none => some "0.00"
    | some s =>
      if s = "" then some "0.00"
      else
        match parseDecimal s with
        | none => none
        | some q => some (fmt2 (q * (1 + markup_percent / 100)))

/-- The `<CONDITION>` value: `result.get('condition', 'U')` — the stored
condition of a success dict (Python `None` printing as `"None"`), and the
default `'U'` for a failure dict, which has no such key. -/
def uploadCondValue (r : PipeResult) : String :=
  match r.res with
  | .success _ _ c _ => optText c
  | .failure .. => "U"

/-- The lines `create_bricklink_upload_xml` appends for one result, in the
source's fixed field order. -/
def uploadItemLines (markup_percent : ℚ) (r : PipeResult) : Option (List String) :=
  match priceValue markup_percent r with
  | none => none
  | some pv =>
    some ["    <ITEM>",
          "        <CATEGORY></CATEGORY>",
          "        <COLOR>0</COLOR>",
          "        <PRICE>" ++ pv ++ "</PRICE>",
          "        <QTY>" ++ toString r.quantity ++ "</QTY>",
          "        <BULK>1</BULK>",
          "        <DESCRIPTION></DESCRIPTION>",
          "        <CONDITION>" ++ uploadCondValue r ++ "</CONDITION>",
          "        <ITEMTYPE>" ++ revTypeMap r.res.itemTypeOf ++ "</ITEMTYPE>",
          "        <ITEMID>" ++ r.res.itemidOf ++ "</ITEMID>",
          "    </ITEM>"]

/-- All `<ITEM>` lines of the upload document, in result order; `none` when
any item raises. -/
def uploadAllLines : List PipeResult → ℚ → Option (List String)
  | [], _ => some []
  | r :: rest, m =>
    match uploadItemLines m r, uploadAllLines rest m with
    | some ls, some rest2 => some (ls ++ rest2)
    | _, _ => none

/-- `create_bricklink_upload_xml(results, markup_percent)`. -/
def create_bricklink_upload_xml (results : List PipeResult) (markup_percent : ℚ) :
    Option String :=
  match uploadAllLines results markup_percent with
  | some ls => some (String.intercalate "\n" ("<INVENTORY>" :: (ls ++ ["</INVENTORY>"])))
  | none => none

/-- One entry of the simplified JSON export.  `average_price` is the JSON
number or `null`; `condition` is the recorded condition string or JSON
`null`; `error` is present only for failed results. -/
structure SimpleEntry where
  item_id : String
  item_type : String
  amount : Nat
  average_price : Option ℚ
  condition : Option String
  error : Option String
deriving DecidableEq

/-- The entry `create_simplified_json` builds for one result: on success,
`average_price` is `float(avg_price)` when the price is truthy (raising —
`none` — on a non-decimal string) and `null` otherwise, and `condition` is
`result['condition']`; on failure, `average_price` is `null`, `condition` is
`result.get('condition', 'U') = 'U'`, and the error text is included. -/
def simplifiedEntry (r : PipeResult) : Option SimpleEntry :=
  match r.res with
  | .success i t c d =>
    match d.avg_price with
    | none => some ⟨i, t, r.quantity, none, c, none⟩
    | some s =>
      if s = "" then some ⟨i, t, r.quantity, none, c, none⟩
      else
        match parseDecimal s with
        | none => none
        | some q => some ⟨i, t, r.quantity, some q, c, none⟩
  | .failure i t e _ => some ⟨i, t, r.quantity, none, some "U", some e⟩

/-- `create_simplified_json(results)`: one entry per result, in order;
`none` when any entry raises. -/
def create_simplified_json : List PipeResult → Option (List SimpleEntry)
  | [] => some []
  | r :: rest =>
    match simplifiedEntry r, create_simplified_json rest with
    | some en, some rest2 => some (en :: rest2)
    | _, _ => none

/-- A pricing payload with no fields (an empty `data` dict). -/
def pdNone : PriceData := ⟨none, none, none, none, 1⟩

/-- A pricing payload quoting an average price of `$5.00`. -/
def pd500 : PriceData := ⟨some "5.00", none, none, none, 1⟩

/-- A pricing payload quoting an average price of `$10.00`. -/
def pd1000 : PriceData := ⟨some "10.00", none, none, none, 1⟩

/-- A pricing payload quoting an average price of `$23.50`. -/
def pd2350 : PriceData := ⟨some "23.50", none, none, none, 1⟩

/-- An API-success `meta` object (`meta.code == 200`). -/
def meta200 : ApiMeta := ⟨some 200, none, none⟩

/-- A successful API body carrying payload `d`. -/
def okBody (d : PriceData) : ApiBody := ⟨meta200, d⟩

/-- An HTTP oracle under which every used-condition lookup succeeds with an
empty payload and every other lookup succeeds with an average price. -/
def oracleUsedEmpty : String → String → Option String → HttpOutcome :=
  fun _ _ c =>
    if c = some "U" then HttpOutcome.ok 200 (okBody pdNone)
    else HttpOutcome.ok 200 (okBody pd500)

/-- A used-condition line item for minifigure `x`. -/
def liUsedX : LineItem := ⟨"x", ItemType.M, some "0", 1, some "U"⟩

/-- A new-condition line item for the same minifigure `x`. -/
def liNewX : LineItem := ⟨"x", ItemType.M, some "0", 1, some "N"⟩

/-- A used-condition line item for part `w` with quantity 3. -/
def liUsedW : LineItem := ⟨"w", ItemType.P, some "0", 3, some "U"⟩

/-- A line item whose condition string contains an underscore, so that its
dedup key collides with that of a different triple. -/
def liCollA : LineItem := ⟨"x", ItemType.M, some "0", 1, some "P_U"⟩

/-- A line item with an underscore in its id: a triple distinct from
`liCollA`'s, yet with the same dedup-key string. -/
def liCollB : LineItem := ⟨"x_M", ItemType.P, some "0", 2, some "U"⟩

/-- An HTTP oracle under which every request raises a bare transport error. -/
def oracleDown : String → String → Option String → HttpOutcome :=
  fun _ _ _ => HttpOutcome.exn "e" none

/-- A successful result for item `a` with average price `$10.00`. -/
def sampleSuccess10 : PipeResult :=
  ⟨FetchResult.success "a" "MINIFIG" (some "U") pd1000, 1⟩

/-- A successful result for item `c` with average price `$23.50`. -/
def sampleSuccess2350 : PipeResult :=
  ⟨FetchResult.success "c" "SET" (some "N") pd2350, 4⟩

/-- A failed lookup result. -/
def sampleFailure : PipeResult :=
  ⟨FetchResult.failure "b" "PART" "err" none, 2⟩

/-- An inventory entry with a valid type and id whose `<QTY>` element is
present but empty (`qty.text is None`). -/
def qtyBugEntry : RawItem :=
  ⟨some (some "M"), some (some "x"), none, some none, none⟩

lemma countPrim_append (item_id api_type : String) (cond : Option String)
    (a b : List Call) :
    countPrim item_id api_type cond (a ++ b) =
      countPrim item_id api_type cond a + countPrim item_id api_type cond b := by
  simp [countPrim, List.filter_append]

lemma countPrim_processItem (fetch : Fetch) (li : LineItem)
    (item_id api_type : String) (cond : Option String) :
    countPrim item_id api_type cond (processItem fetch li).2 =
      if li.itemid = item_id ∧ ITEM_TYPE_MAP li.itemtype = api_type ∧ li.condition = cond
      then 1 else 0 := by
  have h : (processItem fetch li).2 =
        [⟨li.itemid, ITEM_TYPE_MAP li.itemtype, li.condition, false⟩] ∨
      (processItem fetch li).2 =
        [⟨li.itemid, ITEM_TYPE_MAP li.itemtype, li.condition, false⟩,
         ⟨li.itemid, ITEM_TYPE_MAP li.itemtype, some "N", true⟩] := by
    simp only [processItem]
    by_cases hb : needsFallback li.condition
        (fetch li.itemid (ITEM_TYPE_MAP li.itemtype) li.condition) = true
    · rw [if_pos hb]; right; rfl
    · rw [if_neg hb]; left; rfl
  by_cases h1 : li.itemid = item_id <;>
    by_cases h2 : ITEM_TYPE_MAP li.itemtype = api_type <;>
      by_cases h3 : li.condition = cond <;>
        rcases h with h | h <;>
          simp [countPrim, List.filter, h, h1, h2, h3]

lemma uniqueKey_eq_keyOfTriple (li : LineItem) (item_id api_type : String)
    (cond : Option String) (h1 : li.itemid = item_id)
    (h2 : ITEM_TYPE_MAP li.itemtype = api_type) (h3 : li.condition = cond) :
    uniqueKey li = keyOfTriple item_id api_type cond := by
  subst h1; subst h2; subst h3
  obtain ⟨lid, lty, lcol, lq, lcond⟩ := li
  cases lty <;> rfl

lemma countPrim_pipelineGo (fetch : Fetch) (filt : Option String)
    (item_id api_type : String) (cond : Option String) :
    ∀ (items : List LineItem) (seen : List String),
      countPrim item_id api_type cond (pipelineGo fetch filt items seen).2 ≤ 1 ∧
      (keyOfTriple item_id api_type cond ∈ seen →
        countPrim item_id api_type cond (pipelineGo fetch filt items seen).2 = 0)
  | [], seen => by simp [pipelineGo, countPrim]
  | li :: rest, seen => by
    by_cases hf : !passesFilter filt li.condition
    · simp only [pipelineGo, hf, if_pos]
      exact countPrim_pipelineGo fetch filt item_id api_type cond rest seen
    · by_cases hk : uniqueKey li ∈ seen
      · simp only [pipelineGo, hf, Bool.false_eq_true, if_false, if_pos hk]
        exact countPrim_pipelineGo fetch filt item_id api_type cond rest seen
      · have ih := countPrim_pipelineGo fetch filt item_id api_type cond rest
          (uniqueKey li :: seen)
        simp only [pipelineGo, hf, Bool.false_eq_true, if_false, if_neg hk]
        rw [countPrim_append, countPrim_processItem]
        by_cases hm : li.itemid = item_id ∧ ITEM_TYPE_MAP li.itemtype = api_type ∧
            li.condition = cond
        · have hkey : uniqueKey li = keyOfTriple item_id api_type cond :=
            uniqueKey_eq_keyOfTriple li item_id api_type cond hm.1 hm.2.1 hm.2.2
          have htail : countPrim item_id api_type cond
              (pipelineGo fetch filt rest (uniqueKey li :: seen)).2 = 0 :=
            ih.2 (by rw [← hkey]; exact List.mem_cons_self _ _)
          constructor
          · rw [if_pos hm, htail]
          · intro hmem
            exact absurd (by rw [hkey]; exact hmem) hk
        · constructor
          · rw [if_neg hm, Nat.zero_add]
            exact ih.1
          · intro hmem
            rw [if_neg hm, Nat.zero_add]
            exact ih.2 (List.mem_cons_of_mem _ hmem)

lemma pipelineGo_fst (fetch : Fetch) (filt : Option String) :
    ∀ (items : List LineItem) (seen : List String),
      (pipelineGo fetch filt items seen).1 =
        (dedupFirstBy uniqueKey
            (items.filter (fun li => passesFilter filt li.condition)) seen).map
          (fun li => (processItem fetch li).1)
  | [], seen => by simp [pipelineGo, dedupFirstBy]
  | li :: rest, seen => by
    by_cases hf : passesFilter filt li.condition
    · by_cases hk : uniqueKey li ∈ seen <;>
        simp [pipelineGo, dedupFirstBy, hf, hk,
          pipelineGo_fst fetch filt rest seen,
          pipelineGo_fst fetch filt rest (uniqueKey li :: seen)]
    · simp [pipelineGo, dedupFirstBy, hf, pipelineGo_fst fetch filt rest seen]

lemma pipeline_singleton (fetch : Fetch) (li : LineItem) :
    get_prices_for_inventory fetch [li] none = [(processItem fetch li).1] ∧
    pipelineCalls fetch [li] none = (processItem fetch li).2 := by
  constructor <;>
    simp [get_prices_for_inventory, pipelineCalls, pipelineGo, passesFilter, pyTruthy]

lemma processItem_usedFallback (fetch : Fetch) (li : LineItem) (d : PriceData)
    (hu : li.condition = some "U")
    (hf : fetch li.itemid (ITEM_TYPE_MAP li.itemtype) (some "U") =
      FetchResult.success li.itemid (ITEM_TYPE_MAP li.itemtype) (some "U") d)
    (hna : pyTruthy d.avg_price = false) :
    (processItem fetch li).2 =
      [⟨li.itemid, ITEM_TYPE_MAP li.itemtype, some "U", false⟩,
       ⟨li.itemid, ITEM_TYPE_MAP li.itemtype, some "N", true⟩] ∧
    ∀ d2 : PriceData,
      fetch li.itemid (ITEM_TYPE_MAP li.itemtype) (some "N") =
        FetchResult.success li.itemid (ITEM_TYPE_MAP li.itemtype) (some "N") d2 →
      pyTruthy d2.avg_price = true →
      (processItem fetch li).1 =
        ⟨FetchResult.success li.itemid (ITEM_TYPE_MAP li.itemtype) (some "U") d2,
          li.quantity⟩ := by
  simp only [processItem]
  rw [hu, hf]
  have hnf : needsFallback (some "U")
      (FetchResult.success li.itemid (ITEM_TYPE_MAP li.itemtype) (some "U") d) = true := by
    simp [needsFallback, hna]
  rw [if_pos hnf]
  constructor
  · rfl
  · intro d2 hf2 hav
    rw [hf2]
    simp [hav, FetchResult.withData]

lemma create_simplified_json_length :
    ∀ (rs : List PipeResult) (es : List SimpleEntry),
      create_simplified_json rs = some es → es.length = rs.length
  | [], es => by
    simp only [create_simplified_json, Option.some_inj]
    rintro rfl; rfl
  | r :: rest, es => by
    simp only [create_simplified_json]
    cases h1 : simplifiedEntry r with
    | none => simp
    | some en =>
      cases h2 : create_simplified_json rest with
      | none => simp
      | some rest2 =>
        simp only [Option.some_inj]
        rintro rfl
        simp [create_simplified_json_length rest rest2 h2]

lemma processItem_quantity (fetch : Fetch) (li : LineItem) :
    (processItem fetch li).1.quantity = li.quantity := by
  simp only [processItem]
  by_cases hb : needsFallback li.condition
      (fetch li.itemid (ITEM_TYPE_MAP li.itemtype) li.condition) = true
  · rw [if_pos hb]
  · rw [if_neg hb]

lemma priceValue_success (m : ℚ) (r : PipeResult) (i t : String) (c : Option String)
    (d : PriceData) (s : String) (q : ℚ)
    (hres : r.res = FetchResult.success i t c d) (hs : d.avg_price = some s)
    (hne : s ≠ "") (hq : parseDecimal s = some q) :
    priceValue m r = some (fmt2 (q * (1 + m / 100))) := by
  simp only [priceValue, hres, hs]
  rw [if_neg hne, hq]

lemma priceValue_noAvg (m : ℚ) (r : PipeResult) (i t : String) (c : Option String)
    (d : PriceData) (hres : r.res = FetchResult.success i t c d)
    (hna : pyTruthy d.avg_price = false) :
    priceValue m r = some "0.00" := by
  simp only [priceValue, hres]
  cases hd : d.avg_price with
  | none => rfl
  | some s =>
    rw [hd] at hna
    have hs : s = "" := by
      rcases eq_or_ne s "" with h | h
      · exact h
      · simp [pyTruthy, h] at hna
    subst hs
    rfl

lemma priceValue_failure (m : ℚ) (r : PipeResult)
    (h : r.res.isSuccess = false) : priceValue m r = some "0.00" := by
  cases hres : r.res with
  | success i t c d => rw [hres] at h; simp [FetchResult.isSuccess] at h
  | failure i t e sc => simp [priceValue, hres]

/-- Claim C7: for every file path, when the inventory file is absent or the XML
is malformed, `parse_xml_inventory` prints an error message for the user and
returns the empty item list; all exception paths are caught inside the
function, so nothing is raised past its boundary (the embedding is total and
every failure branch yields `([], some message)`). -/
theorem claim_C7 :
    (∀ xml_file : String,
      parse_xml_inventory xml_file XmlSource.missing =
        ([], some ("Error: XML file " ++ singleQuote ++ xml_file ++ singleQuote ++
          " not found."))) ∧
    (∀ xml_file m : String,
      parse_xml_inventory xml_file (XmlSource.malformed m) =
        ([], some ("Error parsing XML file: " ++ m))) :=
  ⟨fun _ => rfl, fun _ _ => rfl⟩

/-- Claim C8: `get_item_price` never raises to its caller: for every HTTP
outcome and arguments it is total, returning the success dictionary with the
payload's pricing data exactly when the payload metadata code is 200, and a
tagged failure dictionary carrying an error message and a (possibly null)
status code on every other API-level or transport-level outcome. -/
theorem claim_C8 (o : HttpOutcome) (item_id item_type : String)
    (condition : Option String) :
    (∃ st body, o = HttpOutcome.ok st body ∧ body.meta.code = some 200 ∧
      get_item_price o item_id item_type condition =
        FetchResult.success item_id item_type condition body.data) ∨
    (∃ e sc, get_item_price o item_id item_type condition =
      FetchResult.failure item_id item_type e sc) := by
  cases o with
  | ok st body =>
    by_cases h : body.meta.code = some 200
    · exact Or.inl ⟨st, body, rfl, h, by simp [get_item_price, h]⟩
    · exact Or.inr ⟨fullErrorOf body.meta, some st, by simp [get_item_price, h]⟩
  | badJson st msg => exact Or.inr ⟨msg, none, rfl⟩
  | exn msg resp =>
    refine Or.inr ?_
    cases resp with
    | none => exact ⟨msg, none, rfl⟩
    | some r =>
      cases hr : r.jsonMessage with
      | none =>
        exact ⟨"HTTP " ++ toString r.status_code ++ ": " ++ r.text,
          some r.status_code, by simp [get_item_price, hr]⟩
      | some jm => exact ⟨jm.getD msg, some r.status_code, by simp [get_item_price, hr]⟩

/-- Claim C9: every failure dictionary returned by `get_item_price` has no
`condition` key, so for every failed lookup both exporters fall back to the
`.get('condition', 'U')` default and record condition `"U"`, whatever
condition was actually requested. -/
theorem claim_C9 (o : HttpOutcome) (item_id item_type : String)
    (condition : Option String) (q : ℕ)
    (h : (get_item_price o item_id item_type condition).isSuccess = false) :
    (get_item_price o item_id item_type condition).conditionKey = none ∧
    uploadCondValue ⟨get_item_price o item_id item_type condition, q⟩ = "U" ∧
    (∀ en, simplifiedEntry ⟨get_item_price o item_id item_type condition, q⟩ = some en →
      en.condition = some "U") ∧
    (∀ (m : ℚ) (lines : List String),
      uploadItemLines m ⟨get_item_price o item_id item_type condition, q⟩ = some lines →
      "        <CONDITION>U</CONDITION>" ∈ lines) := by
  cases hres : get_item_price o item_id item_type condition with
  | success i t c d => rw [hres] at h; simp [FetchResult.isSuccess] at h
  | failure i t e sc =>
    refine ⟨rfl, rfl, ?_, ?_⟩
    · intro en hen
      simp only [simplifiedEntry, Option.some_inj] at hen
      rw [← hen]
    · intro m lines hl
      simp only [uploadItemLines, priceValue, Option.some_inj] at hl
      rw [← hl]
      simp [uploadCondValue]

/-- Witness for C9: a transport error with no attached response yields a
failure dictionary, and the upload export records condition `"U"` for it even
though condition `"N"` was requested. -/
theorem claim_C9_witness :
    (get_item_price (HttpOutcome.exn "boom" none) "x" "MINIFIG" (some "N")).isSuccess
      = false ∧
    uploadCondValue ⟨get_item_price (HttpOutcome.exn "boom" none) "x" "MINIFIG"
      (some "N"), 1⟩ = "U" :=
  ⟨by decide,
    (claim_C9 (HttpOutcome.exn "boom" none) "x" "MINIFIG" (some "N") 1 (by decide)).2.1⟩

/-- Claim C10: the dedup key is the bare string concatenation
`itemid ++ "_" ++ typecode ++ "_" ++ condition`, and the key is not
injective on triples: the distinct triples `("x", M, "P_U")` and
`("x_M", P, "U")` share the key `"x_M_P_U"`, so on an input containing both
only the first receives a lookup and the second is dropped from the output. -/
theorem claim_C10 :
    (∀ li : LineItem, uniqueKey li =
      li.itemid ++ "_" ++ typeCode li.itemtype ++ "_" ++ optText li.condition) ∧
    (liCollA.itemid, liCollA.itemtype, liCollA.condition) ≠
      (liCollB.itemid, liCollB.itemtype, liCollB.condition) ∧
    uniqueKey liCollA = uniqueKey liCollB ∧
    pipelineCalls (mkFetch oracleDown) [liCollA, liCollB] none =
      [⟨"x", "MINIFIG", some "P_U", false⟩] ∧
    get_prices_for_inventory (mkFetch oracleDown) [liCollA, liCollB] none =
      [⟨FetchResult.failure "x" "MINIFIG" "e" none, 1⟩] :=
  ⟨fun _ => rfl, by decide, by decide, by decide, by decide⟩

/-- Claim C4 (failing case): an entry with a valid type code and a non-empty
id whose `<QTY>` element is present but empty makes the parser call
`None.isdigit()`; the blanket handler catches the `AttributeError`, prints an
error and returns the empty list, instead of including the entry with the
default quantity 1 as the specification describes. -/
theorem claim_C4_qty_crash :
    parse_xml_inventory "Minifigures.xml" (XmlSource.ok [qtyBugEntry]) =
      ([], some ("Error reading XML file: " ++ attrErrMsg)) := by
  decide

/-- Counterexample to claim C1 as stated: with an input holding a used and a
new line item for the same minifigure, and the API returning a used price
payload without an average, the run performs two lookups with the identical
argument triple `("x", "MINIFIG", N)` — the used-to-new fallback call and the
new item's own dedup-guarded call — refuting "at most one price lookup per
unique (item_id, item_type, condition) key per run". -/
theorem claim_C1_counterexample :
    ((pipelineCalls (mkFetch oracleUsedEmpty) [liUsedX, liNewX] none).filter
      (fun c => c.itemid == "x" && c.apiType == "MINIFIG" && c.cond == some "N")).length
      = 2 := by
  decide

/-- Claim C1 (amended): for every input list and condition filter, the
pipeline performs at most one dedup-guarded (non-fallback) price lookup per
unique (item_id, item_type, condition) argument triple per run, regardless of
how many line items share that key; only the used-to-new fallback can add a
further lookup of an already-looked-up `(id, type, "N")` key. -/
theorem claim_C1_amended (fetch : Fetch) (items : List LineItem)
    (condition_filter : Option String) (item_id api_type : String)
    (cond : Option String) :
    countPrim item_id api_type cond (pipelineCalls fetch items condition_filter) ≤ 1 :=
  (countPrim_pipelineGo fetch condition_filter item_id api_type cond items []).1

/-- Claim C2: for a used-condition line item whose primary fetch succeeds with
no (truthy) average price, the pipeline run on that item issues exactly one
additional fetch, for condition `"N"` on the same item id and type; and if
that fallback succeeds with a truthy average price, the produced result is
the success dictionary whose payload is the fallback payload while its
recorded condition field still reads `"U"`. -/
theorem claim_C2 (o : String → String → Option String → HttpOutcome)
    (li : LineItem) (d : PriceData)
    (hu : li.condition = some "U")
    (hf : mkFetch o li.itemid (ITEM_TYPE_MAP li.itemtype) (some "U") =
      FetchResult.success li.itemid (ITEM_TYPE_MAP li.itemtype) (some "U") d)
    (hna : pyTruthy d.avg_price = false) :
    pipelineCalls (mkFetch o) [li] none =
      [⟨li.itemid, ITEM_TYPE_MAP li.itemtype, some "U", false⟩,
       ⟨li.itemid, ITEM_TYPE_MAP li.itemtype, some "N", true⟩] ∧
    ∀ d2 : PriceData,
      mkFetch o li.itemid (ITEM_TYPE_MAP li.itemtype) (some "N") =
        FetchResult.success li.itemid (ITEM_TYPE_MAP li.itemtype) (some "N") d2 →
      pyTruthy d2.avg_price = true →
      get_prices_for_inventory (mkFetch o) [li] none =
        [⟨FetchResult.success li.itemid (ITEM_TYPE_MAP li.itemtype) (some "U") d2,
          li.quantity⟩] := by
  have hp := processItem_usedFallback (mkFetch o) li d hu hf hna
  have hs := pipeline_singleton (mkFetch o) li
  refine ⟨by rw [hs.2, hp.1], ?_⟩
  intro d2 h1 h2
  rw [hs.1, hp.2 d2 h1 h2]

/-- Witness for C2: a used part `w` whose used lookup succeeds with an empty
payload and whose new lookup quotes `$5.00`: the run issues the used call and
exactly one fallback new call, and returns the success dict labelled `"U"`
carrying the new payload. -/
theorem claim_C2_witness :
    pipelineCalls (mkFetch oracleUsedEmpty) [liUsedW] none =
      [⟨"w", "PART", some "U", false⟩, ⟨"w", "PART", some "N", true⟩] ∧
    get_prices_for_inventory (mkFetch oracleUsedEmpty) [liUsedW] none =
      [⟨FetchResult.success "w" "PART" (some "U") pd500, 3⟩] := by
  have h := claim_C2 oracleUsedEmpty liUsedW pdNone rfl (by decide) (by decide)
  exact ⟨h.1, h.2 pd500 (by decide) (by decide)⟩

/-- Claim C3: a run of the pipeline equals processing, in order, the first
occurrence of each dedup key among the items that pass the condition filter:
one result per first-encountered key, in insertion order, each carrying the
quantity of its first-encountered line item (later duplicates are dropped,
never summed). -/
theorem claim_C3 (fetch : Fetch) (items : List LineItem)
    (condition_filter : Option String) :
    get_prices_for_inventory fetch items condition_filter =
      (dedupFirstBy uniqueKey
          (items.filter (fun li => passesFilter condition_filter li.condition)) []).map
        (fun li => (processItem fetch li).1) ∧
    ∀ li : LineItem, (processItem fetch li).1.quantity = li.quantity :=
  ⟨pipelineGo_fst fetch condition_filter items [], processItem_quantity fetch⟩

/-- Claim C5: the upload export's `<PRICE>` value is `"0.00"` for a failed
lookup and for a success without a truthy average price; for a success whose
average price parses as `q` it is `q * (1 + markup/100)` formatted to two
decimals, and that value is the one written into the `<PRICE>` line of the
item's XML block; in particular markup 15 on an average of `10.00` exports
`"11.50"`. -/
theorem claim_C5 (markup_percent : ℚ) (r : PipeResult) :
    (r.res.isSuccess = false → priceValue markup_percent r = some "0.00") ∧
    (∀ (i t : String) (c : Option String) (d : PriceData),
      r.res = FetchResult.success i t c d → pyTruthy d.avg_price = false →
      priceValue markup_percent r = some "0.00") ∧
    (∀ (i t : String) (c : Option String) (d : PriceData) (s : String) (q : ℚ),
      r.res = FetchResult.success i t c d → d.avg_price = some s → s ≠ "" →
      parseDecimal s = some q →
      priceValue markup_percent r = some (fmt2 (q * (1 + markup_percent / 100)))) ∧
    (∀ (v : String) (lines : List String),
      priceValue markup_percent r = some v →
      uploadItemLines markup_percent r = some lines →
      ("        <PRICE>" ++ v ++ "</PRICE>") ∈ lines) ∧
    priceValue 15 sampleSuccess10 = some "11.50" := by
  refine ⟨priceValue_failure markup_percent r,
    fun i t c d h1 h2 => priceValue_noAvg markup_percent r i t c d h1 h2,
    fun i t c d s q h1 h2 h3 h4 =>
      priceValue_success markup_percent r i t c d s q h1 h2 h3 h4,
    ?_, ?_⟩
  · intro v lines hv hl
    simp only [uploadItemLines, hv, Option.some_inj] at hl
    rw [← hl]
    simp
  · have h1 := priceValue_success 15 sampleSuccess10 "a" "MINIFIG" (some "U") pd1000
      "10.00" 10 rfl rfl (by decide) (by decide)
    have h2 : (10 : ℚ) * (1 + 15 / 100) = mkRat 23 2 := by
      rw [Rat.mkRat_eq_div]; norm_num
    rw [h1, h2]
    decide

/-- Witness for C5: the sample success with average `10.00` under markup 15
exports `"11.50"`, and a failed lookup exports `"0.00"`. -/
theorem claim_C5_witness :
    priceValue 15 sampleSuccess10 = some "11.50" ∧
    priceValue 15 sampleFailure = some "0.00" :=
  ⟨(claim_C5 15 sampleSuccess10).2.2.2.2, (claim_C5 15 sampleFailure).1 rfl⟩

/-- Claim C6: the simplified export has one entry per result; a failed
result's entry has a null `average_price`, carries the error text, and the
`"U"` condition default; a successful result with average price `"23.50"`
gets the number `23.5` as its `average_price`. -/
theorem claim_C6 (results : List PipeResult) :
    (∀ es, create_simplified_json results = some es → es.length = results.length) ∧
    (∀ (i t e : String) (sc : Option Int) (q2 : ℕ),
      simplifiedEntry ⟨FetchResult.failure i t e sc, q2⟩ =
        some ⟨i, t, q2, none, some "U", some e⟩) ∧
    (∀ (i t : String) (c : Option String) (d : PriceData) (q2 : ℕ),
      d.avg_price = some "23.50" →
      simplifiedEntry ⟨FetchResult.success i t c d, q2⟩ =
        some ⟨i, t, q2, some ((47 : ℚ) / 2), c, none⟩) := by
  refine ⟨fun es h => create_simplified_json_length results es h,
    fun i t e sc q2 => rfl, ?_⟩
  intro i t c d q2 hd
  have hpd : parseDecimal "23.50" = some ((47 : ℚ) / 2) := by
    have h1 : ((47 : ℚ) / 2) = mkRat 47 2 := by rw [Rat.mkRat_eq_div]; norm_num
    rw [h1]; decide
  simp only [simplifiedEntry, hd]
  rw [if_neg (by decide : ¬("23.50" : String) = ""), hpd]

/-- Witness for C6: the concrete `$23.50` success entry carries the number
`23.5`, and the simplified export of a one-failure list has one entry. -/
theorem claim_C6_witness :
    simplifiedEntry ⟨FetchResult.success "c" "SET" (some "N") pd2350, 4⟩ =
      some ⟨"c", "SET", 4, some ((47 : ℚ) / 2), some "N", none⟩ ∧
    ([⟨"b", "PART", 2, none, some "U", some "err"⟩] : List SimpleEntry).length =
      [sampleFailure].length :=
  ⟨(claim_C6 []).2.2 "c" "SET" (some "N") pd2350 4 rfl,
    (claim_C6 [sampleFailure]).1 [⟨"b", "PART", 2, none, some "U", some "err"⟩]
      (by decide)⟩
